import Mathlib

/-!
Verification of the ai-key-manager credential engine
(modules/validators.py, modules/key_manager.py, modules/utils.py,
modules/config.py), shallowly embedded in Lean.

Conventions of the embedding:
* Python strings are Lean `String`; substring tests, lowercasing and
  slicing work on the character (codepoint) level, as in Python.
* Python dicts whose iteration order matters (JSON metadata objects,
  result maps, the keychain namespaces) are association lists with
  update-in-place-or-append semantics (`setAssoc`), mirroring Python
  dict assignment and insertion order.
* The platform keychain is a pure `Store` value threaded through the
  operations; `keyring.set_password` never fails in the model (its
  exception paths are external I/O, reported by the source as `False`
  returns and out of scope here).
* The network transport is a parameter `Nat → Except String HttpResponse`
  giving, per attempt index, either a response or a raised exception
  message, so the retry loop of `validate_key_online` can be studied
  against arbitrary probe behaviours.
-/

/-- Association-list lookup, modelling Python `dict.get(k)`. -/
def getAssoc {α : Type} : List (String × α) → String → Option α
  | [], _ => none
  | (k2, v) :: rest, k => if k2 = k then some v else getAssoc rest k

/-- Association-list write, modelling Python `d[k] = v`: update the first
binding in place if the key is present, else append (insertion order). -/
def setAssoc {α : Type} : List (String × α) → String → α → List (String × α)
  | [], k, v => [(k, v)]
  | (k2, v2) :: rest, k, v =>
      if k2 = k then (k, v) :: rest else (k2, v2) :: setAssoc rest k v

/-- Does the character list start with the given character list?
(Models Python `str.startswith` on codepoints.) -/
def leadMatch : List Char → List Char → Bool
  | _, [] => true
  | [], _ :: _ => false
  | h :: hs, n :: ns => h == n && leadMatch hs ns

/-- Strip a leading character sequence, or fail. Used to model anchored
regular expressions of the shape `^LIT...$`. -/
def dropLead : List Char → List Char → Option (List Char)
  | rest, [] => some rest
  | [], _ :: _ => none
  | h :: hs, n :: ns => if h == n then dropLead hs ns else none

/-- Substring containment on character lists (Python `needle in hay`). -/
def hasSub : List Char → List Char → Bool
  | hay, needle =>
    if leadMatch hay needle then true
    else
      match hay with
      | [] => false
      | _ :: hs => hasSub hs needle

/-- Python `needle in hay` on strings. -/
def strContains (hay needle : String) : Bool :=
  hasSub hay.toList needle.toList

/-- Python `hay.startswith(needle)`. -/
def strStarts (hay needle : String) : Bool :=
  leadMatch hay.toList needle.toList

/-- ASCII lowercasing of one character (the provider identifiers and
environment variable names the source lowercases are ASCII). -/
def charLower (c : Char) : Char :=
  if 65 ≤ c.toNat ∧ c.toNat ≤ 90 then Char.ofNat (c.toNat + 32) else c

/-- Python `s.lower()` on ASCII strings. -/
def strLower (s : String) : String :=
  String.mk (s.toList.map charLower)

/-- Character class `[A-Za-z0-9]`. -/
def isAlnumAscii (c : Char) : Bool :=
  (65 ≤ c.toNat && c.toNat ≤ 90) || (97 ≤ c.toNat && c.toNat ≤ 122) ||
    (48 ≤ c.toNat && c.toNat ≤ 57)

/-- Character class `[A-Za-z0-9\-_]`. -/
def isKeyChar (c : Char) : Bool :=
  isAlnumAscii c || c == '-' || c == '_'

/-- Character class `[A-Za-z0-9\-_.]` of the generic rule. -/
def isGenericKeyChar (c : Char) : Bool :=
  isKeyChar c || c == '.'

/-- One provider registry entry: `config.py` `DEFAULT_CONFIG["providers"][id]`.
Provider configs are modelled as complete records (the source treats a
falsy/empty config dict the same as a missing provider). -/
structure ProviderConfig where
  displayName : String
  keyPrefix : String
  apiUrl : String
  validationModel : String
deriving Repr, DecidableEq

/-- `config.py` lines 16-47: the five default provider entries, in
insertion order. -/
def defaultProviders : List (String × ProviderConfig) :=
  [("openai",
    ⟨"OpenAI", "sk-", "https://api.openai.com/v1/models", "gpt-3.5-turbo"⟩),
   ("anthropic",
    ⟨"Anthropic", "sk-ant-", "https://api.anthropic.com/v1/messages",
     "claude-3-sonnet-20240229"⟩),
   ("gemini",
    ⟨"Google Gemini", "AIza", "https://generativelanguage.googleapis.com/v1/models",
     "gemini-pro"⟩),
   ("perplexity",
    ⟨"Perplexity AI", "pplx-", "https://api.perplexity.ai/chat/completions",
     "llama-3.1-sonar-small-128k-online"⟩),
   ("groq",
    ⟨"Groq", "gsk_", "https://api.groq.com/openai/v1/models", "llama3-8b-8192"⟩)]

/-- `config.get("providers", {}).get(provider.lower())` — registry lookup,
case-insensitive on the provider identifier. -/
def lookupProvider (registry : List (String × ProviderConfig)) (provider : String) :
    Option ProviderConfig :=
  getAssoc registry (strLower provider)

/-- `validators.py` lines 47-53, `_validate_openai_format`:
regex `^sk-[A-Za-z0-9]{48,51}$`. -/
def validate_openai_format (key : String) : Bool × String :=
  match dropLead key.toList "sk-".toList with
  | some rest =>
      if 48 ≤ rest.length && rest.length ≤ 51 && rest.all isAlnumAscii then
        (true, "Valid format")
      else (false, "Invalid OpenAI key format (should be sk-[48-51 alphanumeric chars])")
  | none => (false, "Invalid OpenAI key format (should be sk-[48-51 alphanumeric chars])")

/-- `validators.py` lines 56-62, `_validate_anthropic_format`:
regex `^sk-ant-[A-Za-z0-9\-_]{50,}$`. -/
def validate_anthropic_format (key : String) : Bool × String :=
  match dropLead key.toList "sk-ant-".toList with
  | some rest =>
      if 50 ≤ rest.length && rest.all isKeyChar then (true, "Valid format")
      else (false, "Invalid Anthropic key format (should be sk-ant-[50+ chars])")
  | none => (false, "Invalid Anthropic key format (should be sk-ant-[50+ chars])")

/-- `validators.py` lines 65-71, `_validate_gemini_format`:
regex `^AIza[A-Za-z0-9\-_]{35,39}$`. -/
def validate_gemini_format (key : String) : Bool × String :=
  match dropLead key.toList "AIza".toList with
  | some rest =>
      if 35 ≤ rest.length && rest.length ≤ 39 && rest.all isKeyChar then
        (true, "Valid format")
      else (false, "Invalid Gemini key format (should be AIza[35-39 chars])")
  | none => (false, "Invalid Gemini key format (should be AIza[35-39 chars])")

/-- `validators.py` lines 74-80, `_validate_perplexity_format`:
regex `^pplx-[A-Za-z0-9]{32,}$`. -/
def validate_perplexity_format (key : String) : Bool × String :=
  match dropLead key.toList "pplx-".toList with
  | some rest =>
      if 32 ≤ rest.length && rest.all isAlnumAscii then (true, "Valid format")
      else (false, "Invalid Perplexity key format (should be pplx-[32+ alphanumeric chars])")
  | none => (false, "Invalid Perplexity key format (should be pplx-[32+ alphanumeric chars])")

/-- `validators.py` lines 83-89, `_validate_groq_format`:
regex `^gsk_[A-Za-z0-9]{50,}$`. -/
def validate_groq_format (key : String) : Bool × String :=
  match dropLead key.toList "gsk_".toList with
  | some rest =>
      if 50 ≤ rest.length && rest.all isAlnumAscii then (true, "Valid format")
      else (false, "Invalid Groq key format (should be gsk_[50+ alphanumeric chars])")
  | none => (false, "Invalid Groq key format (should be gsk_[50+ alphanumeric chars])")

/-- `validators.py` lines 92-104, `_validate_generic_format`; the second
argument mirrors the source's (unused) second parameter. -/
def validate_generic_format (key : String) (_keyFront : String) : Bool × String :=
  if key.length < 20 then (false, "Key appears too short (minimum 20 characters)")
  else if 200 < key.length then (false, "Key appears too long (maximum 200 characters)")
  else if key.toList.all isGenericKeyChar then (true, "Valid format")
  else (false, "Key contains invalid characters")

/-- The provider-specific pattern dispatch of `validate_key_format`
(`validators.py` lines 32-44). -/
def providerFormat (provider : String) (pc : ProviderConfig) (key : String) :
    Bool × String :=
  if strLower provider = "openai" then validate_openai_format key
  else if strLower provider = "anthropic" then validate_anthropic_format key
  else if strLower provider = "gemini" then validate_gemini_format key
  else if strLower provider = "perplexity" then validate_perplexity_format key
  else if strLower provider = "groq" then validate_groq_format key
  else validate_generic_format key pc.keyPrefix

/-- `validators.py` lines 12-44, `validate_key_format`: registry
resolution, emptiness, required leading literal, then the
provider-specific pattern. -/
def validate_key_format (registry : List (String × ProviderConfig))
    (provider key : String) : Bool × String :=
  match lookupProvider registry provider with
  | none => (false, "Unknown provider: " ++ provider)
  | some pc =>
      if key = "" then (false, "Key is empty")
      else if pc.keyPrefix ≠ "" ∧ ¬ strStarts key pc.keyPrefix then
        (false, "Key must start with '" ++ pc.keyPrefix ++ "'")
      else providerFormat provider pc key

/-- `utils.py` lines 127-136, `format_key_for_display`: reveal returns the
secret; keys of at most 8 characters become the fixed mask; longer keys
show the first 4 and last 4 characters around an ellipsis. -/
def format_key_for_display (key : String) (reveal : Bool) : String :=
  if reveal then key
  else if key.length ≤ 8 then "****"
  else (key.toList.take 4).asString ++ "..." ++
    (key.toList.drop (key.length - 4)).asString

/-- Abstraction of the provider HTTP response consumed by the
`_validate_*_online` functions: the status code, the length of the
`data`/`models` list a 200 body would carry, and the stringified error
body inspected by the gemini 400 branch. -/
structure HttpResponse where
  statusCode : Nat
  modelsCount : Nat
  bodyText : String
deriving Repr, DecidableEq

/-- `validators.py` lines 151-165, `_validate_openai_online`, as the pure
response→verdict mapping (the request itself is the transport's job). -/
def validate_openai_online (resp : HttpResponse) : Bool × String × Option Nat :=
  if resp.statusCode = 200 then
    (true, "Valid - " ++ toString resp.modelsCount ++ " models available",
      some resp.modelsCount)
  else if resp.statusCode = 401 then (false, "Invalid API key", none)
  else (false, "API error: " ++ toString resp.statusCode, none)

/-- `validators.py` lines 168-193, `_validate_anthropic_online`,
response→verdict mapping. -/
def validate_anthropic_online (resp : HttpResponse) : Bool × String × Option Nat :=
  if resp.statusCode = 200 then (true, "Valid API key", none)
  else if resp.statusCode = 401 then (false, "Invalid API key", none)
  else if resp.statusCode = 429 then (true, "Valid but rate limited", none)
  else (false, "API error: " ++ toString resp.statusCode, none)

/-- `validators.py` lines 196-213, `_validate_gemini_online`,
response→verdict mapping. A 400 body not mentioning `API_KEY_INVALID`
falls through to the trailing generic return, as in the source. -/
def validate_gemini_online (resp : HttpResponse) : Bool × String × Option Nat :=
  if resp.statusCode = 200 then
    (true, "Valid - " ++ toString resp.modelsCount ++ " models available",
      some resp.modelsCount)
  else if resp.statusCode = 400 then
    if strContains resp.bodyText "API_KEY_INVALID" then (false, "Invalid API key", none)
    else (false, "API error: " ++ toString resp.statusCode, none)
  else if resp.statusCode = 403 then (false, "API key lacks permissions", none)
  else (false, "API error: " ++ toString resp.statusCode, none)

/-- `validators.py` lines 216-240, `_validate_perplexity_online`,
response→verdict mapping. -/
def validate_perplexity_online (resp : HttpResponse) : Bool × String × Option Nat :=
  if resp.statusCode = 200 then (true, "Valid API key", none)
  else if resp.statusCode = 401 then (false, "Invalid API key", none)
  else if resp.statusCode = 429 then (true, "Valid but rate limited", none)
  else (false, "API error: " ++ toString resp.statusCode, none)

/-- `validators.py` lines 243-257, `_validate_groq_online`,
response→verdict mapping. -/
def validate_groq_online (resp : HttpResponse) : Bool × String × Option Nat :=
  if resp.statusCode = 200 then
    (true, "Valid - " ++ toString resp.modelsCount ++ " models available",
      some resp.modelsCount)
  else if resp.statusCode = 401 then (false, "Invalid API key", none)
  else (false, "API error: " ++ toString resp.statusCode, none)

/-- The per-attempt provider dispatch of `validate_key_online`
(`validators.py` lines 125-136); `none` is the "not implemented" else
branch. -/
def providerProbe (provider : String) (resp : HttpResponse) :
    Option (Bool × String × Option Nat) :=
  if strLower provider = "openai" then some (validate_openai_online resp)
  else if strLower provider = "anthropic" then some (validate_anthropic_online resp)
  else if strLower provider = "gemini" then some (validate_gemini_online resp)
  else if strLower provider = "perplexity" then some (validate_perplexity_online resp)
  else if strLower provider = "groq" then some (validate_groq_online resp)
  else none

/-- The retry loop of `validate_key_online` (`validators.py` lines
123-148). `attempt` is the current 0-based attempt index, `rem` the
attempts still available (`rem = retry_attempts - attempt` at every
call); the second component counts transport invocations. `time.sleep`
between attempts is pure timing and is not modelled. -/
def validateOnlineGo (provider : String) (transport : Nat → Except String HttpResponse)
    (retry_attempts : Nat) : Nat → Nat → (Bool × String × Option Nat) × Nat
  | _, 0 => ((false, "Validation failed after retries", none), 0)
  | attempt, rem + 1 =>
      match transport attempt with
      | Except.ok resp =>
          match providerProbe provider resp with
          | none =>
              ((false, "Online validation not implemented for " ++ provider, none), 1)
          | some r =>
              if r.1 = true ∨ attempt = retry_attempts - 1 then (r, 1)
              else
                let next := validateOnlineGo provider transport retry_attempts
                  (attempt + 1) rem
                (next.1, next.2 + 1)
      | Except.error e =>
          if attempt = retry_attempts - 1 then
            ((false, "Validation error: " ++ e, none), 1)
          else
            let next := validateOnlineGo provider transport retry_attempts
              (attempt + 1) rem
            (next.1, next.2 + 1)

/-- `validators.py` lines 107-148, `validate_key_online`: registry
resolution, then the provider-dispatching retry loop.
`retry_attempts` is the configured attempt budget
(`config["validation"]["retry_attempts"]`, default 3); the per-attempt
timeout and the inter-attempt delay act only on real time. -/
def validate_key_online (registry : List (String × ProviderConfig))
    (provider : String) (transport : Nat → Except String HttpResponse)
    (retry_attempts : Nat) : Bool × String × Option Nat :=
  match lookupProvider registry provider with
  | none => (false, "Unknown provider: " ++ provider, none)
  | some _ =>
      (validateOnlineGo provider transport retry_attempts 0 retry_attempts).1

/-- Number of transport invocations `validate_key_online` performs. -/
def validate_key_online_calls (registry : List (String × ProviderConfig))
    (provider : String) (transport : Nat → Except String HttpResponse)
    (retry_attempts : Nat) : Nat :=
  match lookupProvider registry provider with
  | none => 0
  | some _ =>
      (validateOnlineGo provider transport retry_attempts 0 retry_attempts).2

/-- A JSON scalar stored in a metadata object: either a string or
`null` (Python `None`). -/
inductive MetaVal where
  | str : String → MetaVal
  | null : MetaVal
deriving Repr, DecidableEq

/-- A JSON metadata object, as an insertion-ordered dict. -/
abbrev MetaObj := List (String × MetaVal)

/-- The two keychain namespaces of `key_manager.py`: secrets under the
service name, serialized metadata under the `-meta` sibling service,
both keyed by provider identifier. -/
structure Store where
  secrets : List (String × String)
  meta : List (String × MetaObj)
deriving Repr, DecidableEq

/-- `key_manager.py` lines 130-136, `_key_exists`: `keyring.get_password`
returned something other than `None`. -/
def key_exists (provider : String) (st : Store) : Bool :=
  (getAssoc st.secrets provider).isSome

/-- The fresh metadata record `_store_key` writes
(`key_manager.py` lines 144-149). -/
def freshMetadata (provider now : String) : MetaObj :=
  [("provider", MetaVal.str provider),
   ("created_at", MetaVal.str now),
   ("last_validated", MetaVal.null),
   ("validation_status", MetaVal.str "unknown")]

/-- `key_manager.py` lines 138-155, `_store_key`: write the secret, then
overwrite the provider's metadata with a brand-new record whose
`created_at` is the current time (`now`), `last_validated` is null and
`validation_status` is "unknown". Keychain writes succeed in the model. -/
def store_key (provider apiKey now : String) (st : Store) : Bool × Store :=
  let st1 : Store := { st with secrets := setAssoc st.secrets provider apiKey }
  (true, { st1 with meta := setAssoc st1.meta provider (freshMetadata provider now) })

/-- `key_manager.py` lines 175-184, `_get_key_metadata`: the stored
metadata object, or the empty dict when absent. -/
def get_key_metadata (provider : String) (st : Store) : MetaObj :=
  (getAssoc st.meta provider).getD []

/-- `key_manager.py` lines 186-193, `_update_key_metadata` (keychain
writes succeed in the model). -/
def update_key_metadata (provider : String) (md : MetaObj) (st : Store) :
    Bool × Store :=
  (true, { st with meta := setAssoc st.meta provider md })

/-- `key_manager.py` lines 157-173, `list_keys` restricted to the
`details=False` path (the one `validate_keys` uses): the providers, in
registry order or the explicitly requested one, that have a stored
credential. -/
def list_keys (registry : List (String × ProviderConfig))
    (provider : Option String) (st : Store) : List String :=
  let provs := match provider with
    | some p => [p]
    | none => registry.map Prod.fst
  provs.filter (fun p => key_exists p st)

/-- One entry of the result map `validate_keys` returns: the Python dicts
`{"valid": …, "message": …}` (no `details` field) and
`{"valid": …, "message": …, "details": …}`. -/
structure ValResult where
  valid : Bool
  message : String
  details : Option (Option Nat)
deriving Repr, DecidableEq

/-- `key_manager.py` lines 195-230, `validate_keys`: for each selected
provider, read the secret (`None` or empty → "Key not found" result,
metadata untouched); run format validation (failure → "Format error: …"
result, metadata untouched); otherwise run online validation, record its
verdict in the result map and update the metadata's `last_validated` and
`validation_status`. `transport` supplies each provider's per-attempt
network behaviour; `now` is `datetime.now().isoformat()`. -/
def validate_keys (registry : List (String × ProviderConfig))
    (transport : String → Nat → Except String HttpResponse)
    (retry_attempts : Nat) (now : String) (provider : Option String)
    (st : Store) : List (String × ValResult) × Store :=
  let provs := match provider with
    | some p => [p]
    | none => list_keys registry none st
  provs.foldl
    (fun acc prov =>
      match getAssoc acc.2.secrets prov with
      | none => (setAssoc acc.1 prov ⟨false, "Key not found", none⟩, acc.2)
      | some apiKey =>
          if apiKey = "" then
            (setAssoc acc.1 prov ⟨false, "Key not found", none⟩, acc.2)
          else
            let fv := validate_key_format registry prov apiKey
            if fv.1 = false then
              (setAssoc acc.1 prov ⟨false, "Format error: " ++ fv.2, none⟩, acc.2)
            else
              let ov := validate_key_online registry prov (transport prov) retry_attempts
              let results2 := setAssoc acc.1 prov ⟨ov.1, ov.2.1, some ov.2.2⟩
              let md := get_key_metadata prov acc.2
              let md2 := setAssoc md "last_validated" (MetaVal.str now)
              let md3 := setAssoc md2 "validation_status"
                (MetaVal.str (if ov.1 then "valid" else "invalid"))
              (results2, (update_key_metadata prov md3 acc.2).2))
    ([], st)

/-- `key_manager.py` lines 266-280, `update_key`: optional format gate,
optional online gate (when `security.require_validation` holds), then
`_store_key`. -/
def update_key (registry : List (String × ProviderConfig))
    (requireValidation : Bool) (transport : Nat → Except String HttpResponse)
    (retry_attempts : Nat) (provider apiKey : String) (validate : Bool)
    (now : String) (st : Store) : Bool × Store :=
  if validate then
    let fv := validate_key_format registry provider apiKey
    if fv.1 = false then (false, st)
    else if requireValidation then
      let ov := validate_key_online registry provider transport retry_attempts
      if ov.1 = false then (false, st)
      else store_key provider apiKey now st
    else store_key provider apiKey now st
  else store_key provider apiKey now st

/-- One iteration of the `restore_metadata` loop (`key_manager.py` lines
400-403): restore a backup entry's metadata only when the provider
currently has a stored credential, counting successful restores. -/
def restoreStep (acc : Nat × Store) (entry : String × MetaObj) : Nat × Store :=
  if key_exists entry.1 acc.2 then
    let u := update_key_metadata entry.1 entry.2 acc.2
    if u.1 then (acc.1 + 1, u.2) else (acc.1, u.2)
  else acc

/-- `key_manager.py` lines 391-410, `restore_metadata`, taking the parsed
`backup_data["keys"]` map (file reading and JSON parsing are external):
returns `restored_count > 0` and the updated store. -/
def restore_metadata (backupKeys : List (String × MetaObj)) (st : Store) :
    Bool × Store :=
  let fin := backupKeys.foldl restoreStep (0, st)
  (fin.1 != 0, fin.2)

/-- `key_manager.py` lines 113-128, `_determine_provider_from_key_name`:
substring match of provider tokens (including claude→anthropic and
google→gemini) against the lowercased variable name. -/
def determine_provider_from_key_name (key_name : String) : Option String :=
  let kl := strLower key_name
  if strContains kl "openai" then some "openai"
  else if strContains kl "anthropic" || strContains kl "claude" then some "anthropic"
  else if strContains kl "gemini" || strContains kl "google" then some "gemini"
  else if strContains kl "perplexity" then some "perplexity"
  else if strContains kl "groq" then some "groq"
  else none

/-- `key_manager.py` lines 61-73, the candidate-selection loop of
`import_from_env`: keep entries with a non-empty value whose lowercased
name contains one of the five literal provider identifiers AND a
key-like marker, then map the name through
`_determine_provider_from_key_name`; the resulting dict is keyed by
provider. -/
def find_api_key_vars (env_vars : List (String × String)) :
    List (String × String) :=
  env_vars.foldl
    (fun acc kv =>
      if kv.2 = "" then acc
      else
        let kl := strLower kv.1
        if ["openai", "anthropic", "gemini", "perplexity", "groq"].any
            (fun p => strContains kl p) then
          if strContains kl "api_key" || strContains kl "key" then
            match determine_provider_from_key_name kv.1 with
            | some provider => setAssoc acc provider kv.2
            | none => acc
          else acc
        else acc)
    []

/-- A concrete syntactically valid anthropic key. -/
def anthropicGoodKey : String := "sk-ant-" ++ String.mk (List.replicate 50 'a')

/-- A transport whose every attempt returns a plain 200 response. -/
def okTransport : Nat → Except String HttpResponse := fun _ => Except.ok ⟨200, 0, ""⟩

/-- A store holding one anthropic credential with an aged, validated
metadata record. -/
def c1Before : Store :=
  { secrets := [("anthropic", "sk-ant-oldkey")],
    meta := [("anthropic",
      [("provider", MetaVal.str "anthropic"),
       ("created_at", MetaVal.str "2024-01-01T00:00:00"),
       ("last_validated", MetaVal.str "2024-06-01T00:00:00"),
       ("validation_status", MetaVal.str "valid")])] }

/-- The store after a validating `update_key` of the anthropic credential
on `c1Before` at time 2025-06-01. -/
def c1After : Store :=
  (update_key defaultProviders true okTransport 3 "anthropic" anthropicGoodKey true
    "2025-06-01T00:00:00" c1Before).2

/-- The metadata object `validate_keys` writes back for a processed
provider: `last_validated` set to now, `validation_status` mapped from
the verdict (`key_manager.py` lines 222-225). -/
def validatedMeta (md : MetaObj) (now : String) (verdict : Bool) : MetaObj :=
  setAssoc (setAssoc md "last_validated" (MetaVal.str now)) "validation_status"
    (MetaVal.str (if verdict then "valid" else "invalid"))

/-- A store whose anthropic credential has the right leading literal but
fails the anthropic pattern (too short). -/
def c2BadStore : Store :=
  { secrets := [("anthropic", "sk-ant-short")],
    meta := [("anthropic",
      [("provider", MetaVal.str "anthropic"),
       ("created_at", MetaVal.str "2024-01-01T00:00:00"),
       ("last_validated", MetaVal.null),
       ("validation_status", MetaVal.str "unknown")])] }

/-- A store holding one well-formed anthropic credential with a fresh
metadata record. -/
def c2GoodStore : Store :=
  { secrets := [("anthropic", anthropicGoodKey)],
    meta := [("anthropic", freshMetadata "anthropic" "2024-01-01T00:00:00")] }

/-- The store expected after the witness run: same secret, metadata
stamped at the validation time with an "invalid" status. -/
def c2AfterStore : Store :=
  { secrets := [("anthropic", anthropicGoodKey)],
    meta := [("anthropic",
      [("provider", MetaVal.str "anthropic"),
       ("created_at", MetaVal.str "2024-01-01T00:00:00"),
       ("last_validated", MetaVal.str "2025-02-02T00:00:00"),
       ("validation_status", MetaVal.str "invalid")])] }

theorem getAssoc_setAssoc_self {α : Type} (l : List (String × α)) (k : String) (v : α) :
    getAssoc (setAssoc l k v) k = some v := by
  induction l with
  | nil => simp [getAssoc, setAssoc]
  | cons hd tl ih =>
      obtain ⟨k2, v2⟩ := hd
      by_cases h : k2 = k
      · simp [getAssoc, setAssoc, h]
      · simp [getAssoc, setAssoc, h, ih]

/-- C9: with `reveal = false`, `format_key_for_display` returns the fixed
mask "****" for keys of length at most 8, and otherwise the first 4
characters, an ellipsis marker and the last 4 characters; the full
secret is returned only under `reveal = true`. -/
theorem format_key_for_display_masking (key : String) :
    format_key_for_display key true = key ∧
    (key.length ≤ 8 → format_key_for_display key false = "****") ∧
    (8 < key.length →
      format_key_for_display key false =
        (key.toList.take 4).asString ++ "..." ++
          (key.toList.drop (key.length - 4)).asString) := by
  refine ⟨rfl, ?_, ?_⟩
  · intro h
    simp [format_key_for_display, h]
  · intro h
    simp [format_key_for_display, Nat.not_le.mpr h]

/-- Witness for C9: "abcd12345678" masks to "abcd...5678", and a
6-character key masks to "****". -/
theorem format_key_for_display_masking_witness :
    format_key_for_display "abcd12345678" false = "abcd...5678" ∧
    format_key_for_display "abcdef" false = "****" := by
  constructor
  · exact ((format_key_for_display_masking "abcd12345678").2.2 (by decide)).trans (by decide)
  · exact (format_key_for_display_masking "abcdef").2.1 (by decide)

/-- C5: for the two providers whose online validators define the
rate-limit mapping (anthropic and perplexity), a 429 response yields a
valid verdict with the message "Valid but rate limited". -/
theorem rate_limited_is_valid (resp : HttpResponse) (h : resp.statusCode = 429) :
    validate_anthropic_online resp = (true, "Valid but rate limited", none) ∧
    validate_perplexity_online resp = (true, "Valid but rate limited", none) := by
  constructor <;>
    simp [validate_anthropic_online, validate_perplexity_online, h]

/-- Witness for C5 at the literal 429 response. -/
theorem rate_limited_is_valid_witness :
    validate_anthropic_online ⟨429, 0, ""⟩ = (true, "Valid but rate limited", none) ∧
    validate_perplexity_online ⟨429, 0, ""⟩ = (true, "Valid but rate limited", none) :=
  rate_limited_is_valid ⟨429, 0, ""⟩ rfl

/-- C7 counterexample: the openai online validator maps a 403 response to
the generic "API error: 403" failure, not to a message about missing
permissions — so 403 → "key lacks permissions" does not hold for every
provider. -/
theorem forbidden_openai_counterexample :
    validate_openai_online ⟨403, 0, ""⟩ = (false, "API error: 403", none) ∧
    "API error: 403" ≠ "API key lacks permissions" :=
  ⟨by decide, by decide⟩

/-- C7 amended: only the gemini online validator maps 403 to the
"API key lacks permissions" failure; the other four providers report a
403 as the generic "API error: 403" invalid verdict. -/
theorem forbidden_status_handling (resp : HttpResponse) (h : resp.statusCode = 403) :
    validate_gemini_online resp = (false, "API key lacks permissions", none) ∧
    validate_openai_online resp = (false, "API error: " ++ toString resp.statusCode, none) ∧
    validate_anthropic_online resp = (false, "API error: " ++ toString resp.statusCode, none) ∧
    validate_perplexity_online resp = (false, "API error: " ++ toString resp.statusCode, none) ∧
    validate_groq_online resp = (false, "API error: " ++ toString resp.statusCode, none) := by
  refine ⟨?_, ?_, ?_, ?_, ?_⟩ <;>
    simp [validate_gemini_online, validate_openai_online, validate_anthropic_online,
      validate_perplexity_online, validate_groq_online, h]

/-- Witness for the amended C7 at the literal 403 response. -/
theorem forbidden_status_handling_witness :
    validate_gemini_online ⟨403, 0, ""⟩ = (false, "API key lacks permissions", none) ∧
    validate_openai_online ⟨403, 0, ""⟩ = (false, "API error: 403", none) := by
  have h := forbidden_status_handling ⟨403, 0, ""⟩ rfl
  exact ⟨h.1, h.2.1.trans (by decide)⟩

/-- C8: `validate_key_format` applies its rules in order — registry
resolution ("Unknown provider"), emptiness ("Key is empty"), the
required leading literal ("Key must start with …"), and only then the
provider-specific pattern. -/
theorem validate_key_format_rule_order (registry : List (String × ProviderConfig))
    (provider key : String) :
    (lookupProvider registry provider = none →
      validate_key_format registry provider key =
        (false, "Unknown provider: " ++ provider)) ∧
    (∀ pc, lookupProvider registry provider = some pc → key = "" →
      validate_key_format registry provider key = (false, "Key is empty")) ∧
    (∀ pc, lookupProvider registry provider = some pc → key ≠ "" →
      pc.keyPrefix ≠ "" → strStarts key pc.keyPrefix = false →
      validate_key_format registry provider key =
        (false, "Key must start with '" ++ pc.keyPrefix ++ "'")) ∧
    (∀ pc, lookupProvider registry provider = some pc → key ≠ "" →
      (pc.keyPrefix = "" ∨ strStarts key pc.keyPrefix = true) →
      validate_key_format registry provider key = providerFormat provider pc key) := by
  refine ⟨?_, ?_, ?_, ?_⟩
  · intro h
    simp [validate_key_format, h]
  · intro pc h hk
    simp [validate_key_format, h, hk]
  · intro pc h hk hp hs
    simp [validate_key_format, h, hk, hp, hs]
  · intro pc h hk hor
    rcases hor with hp | hs
    · simp [validate_key_format, h, hk, hp]
    · simp [validate_key_format, h, hk, hs]

/-- Witness for C8: a non-empty openai key with the wrong leading literal
fails on rule 3, and an unregistered provider fails on rule 1. -/
theorem validate_key_format_rule_order_witness :
    validate_key_format defaultProviders "openai" "xx" =
      (false, "Key must start with 'sk-'") ∧
    validate_key_format defaultProviders "zzz" "xx" =
      (false, "Unknown provider: zzz") := by
  constructor
  · have h := (validate_key_format_rule_order defaultProviders "openai" "xx").2.2.1
      ⟨"OpenAI", "sk-", "https://api.openai.com/v1/models", "gpt-3.5-turbo"⟩
      (by decide) (by decide) (by decide) (by decide)
    exact h.trans (by decide)
  · exact ((validate_key_format_rule_order defaultProviders "zzz" "xx").1
      (by decide)).trans (by decide)

/-- C6: `import_from_env`'s candidate filter admits only names containing
one of the five literal identifiers, so a claude-named (or google-named)
entry is dropped before ever reaching
`_determine_provider_from_key_name` — whose claude→anthropic and
google→gemini branches would map it; an entry naming a literal
identifier is kept, and a non-matching entry is skipped without
affecting the rest of the batch. -/
theorem import_claude_entry_skipped :
    find_api_key_vars [("CLAUDE_API_KEY", "sk-ant-key")] = [] ∧
    determine_provider_from_key_name "CLAUDE_API_KEY" = some "anthropic" ∧
    find_api_key_vars [("GOOGLE_API_KEY", "AIzaKey")] = [] ∧
    determine_provider_from_key_name "GOOGLE_API_KEY" = some "gemini" ∧
    find_api_key_vars [("ANTHROPIC_API_KEY", "v"), ("SOME_OTHER_VAR", "w")] =
      [("anthropic", "v")] := by
  decide

/-- `_store_key` leaves the provider with the fresh metadata record and
the new secret. -/
theorem store_key_effect (provider apiKey now : String) (st : Store) :
    getAssoc (store_key provider apiKey now st).2.meta provider =
      some (freshMetadata provider now) ∧
    getAssoc (store_key provider apiKey now st).2.secrets provider = some apiKey := by
  constructor
  · simp [store_key, getAssoc_setAssoc_self]
  · simp [store_key, getAssoc_setAssoc_self]

/-- Whenever `update_key` reports success, its whole effect is
`_store_key`'s effect. -/
theorem update_key_success_eq (registry : List (String × ProviderConfig))
    (rv : Bool) (transport : Nat → Except String HttpResponse) (n : Nat)
    (provider apiKey : String) (validate : Bool) (now : String) (st : Store)
    (h : (update_key registry rv transport n provider apiKey validate now st).1 = true) :
    update_key registry rv transport n provider apiKey validate now st =
      store_key provider apiKey now st := by
  unfold update_key at h ⊢
  by_cases hval : validate
  · simp only [if_pos hval] at h ⊢
    by_cases hf : (validate_key_format registry provider apiKey).1 = false
    · simp [hf] at h
    · simp only [if_neg hf] at h ⊢
      by_cases hrv : rv
      · simp only [if_pos hrv] at h ⊢
        by_cases ho : (validate_key_online registry provider transport n).1 = false
        · simp [ho] at h
        · simp [ho]
      · simp [hrv]
  · simp [hval]

/-- C1 counterexample: a successful `update_key` with validation enabled
does NOT leave the creation timestamp unchanged — the stored metadata's
`created_at` moves from 2024-01-01 to the update time, and the update
also alters `last_validated` (to null) and `validation_status` (to
"unknown"). -/
theorem update_key_created_at_counterexample :
    (update_key defaultProviders true okTransport 3 "anthropic" anthropicGoodKey true
      "2025-06-01T00:00:00" c1Before).1 = true ∧
    getAssoc (get_key_metadata "anthropic" c1Before) "created_at" =
      some (MetaVal.str "2024-01-01T00:00:00") ∧
    getAssoc (get_key_metadata "anthropic" c1After) "created_at" =
      some (MetaVal.str "2025-06-01T00:00:00") ∧
    getAssoc (get_key_metadata "anthropic" c1After) "last_validated" =
      some MetaVal.null ∧
    getAssoc (get_key_metadata "anthropic" c1After) "validation_status" =
      some (MetaVal.str "unknown") := by
  decide

/-- C1 amended: a successful `update_key` (validating or not) rewrites
the provider's metadata record wholesale through `_store_key`: the
creation timestamp becomes the update time, last-validated is reset to
null and the validation status to "unknown". Only `validate_keys`
writes a verdict-derived last-validated/status pair. -/
theorem update_key_resets_metadata (registry : List (String × ProviderConfig))
    (rv : Bool) (transport : Nat → Except String HttpResponse) (n : Nat)
    (provider apiKey : String) (validate : Bool) (now : String) (st : Store)
    (h : (update_key registry rv transport n provider apiKey validate now st).1 = true) :
    getAssoc (update_key registry rv transport n provider apiKey validate now st).2.meta
      provider = some (freshMetadata provider now) ∧
    getAssoc (update_key registry rv transport n provider apiKey validate now st).2.secrets
      provider = some apiKey := by
  rw [update_key_success_eq registry rv transport n provider apiKey validate now st h]
  exact store_key_effect provider apiKey now st

/-- Witness for the amended C1 on the concrete validating update. -/
theorem update_key_resets_metadata_witness :
    getAssoc c1After.meta "anthropic" =
      some (freshMetadata "anthropic" "2025-06-01T00:00:00") ∧
    getAssoc c1After.secrets "anthropic" = some anthropicGoodKey :=
  update_key_resets_metadata defaultProviders true okTransport 3 "anthropic"
    anthropicGoodKey true "2025-06-01T00:00:00" c1Before (by decide)

/-- When every remaining attempt raises, the retry loop consumes the
whole budget and reports the LAST attempt's exception wrapped in
"Validation error: …". -/
theorem validateOnlineGo_all_errors (provider : String)
    (transport : Nat → Except String HttpResponse) (n : Nat) (e : Nat → String)
    (he : ∀ i, i < n → transport i = Except.error (e i)) :
    ∀ rem attempt, attempt + rem = n → 0 < rem →
      validateOnlineGo provider transport n attempt rem =
        ((false, "Validation error: " ++ e (n - 1), none), rem) := by
  intro rem
  induction rem with
  | zero => intro attempt _ h0; exact absurd h0 (by omega)
  | succ r ih =>
      intro attempt hsum _
      have hlt : attempt < n := by omega
      have ht := he attempt hlt
      by_cases hlast : attempt = n - 1
      · have hr : r = 0 := by omega
        subst hr
        rw [hlast] at ht
        rw [hlast]
        simp [validateOnlineGo, ht]
      · have hr : 0 < r := by omega
        have hnext := ih (attempt + 1) (by omega) hr
        simp [validateOnlineGo, ht, hlast, hnext]

/-- C3 counterexample: with a registered provider, a 3-attempt budget and
a transport raising "boom" on every attempt, `validate_key_online`
returns the failure "Validation error: boom" — not the generic
"Validation failed after retries" text the claim names. -/
theorem validation_error_message_counterexample :
    validate_key_online defaultProviders "anthropic"
      (fun _ => Except.error "boom") 3 = (false, "Validation error: boom", none) ∧
    "Validation error: boom" ≠ "Validation failed after retries" :=
  ⟨by decide, by decide⟩

/-- C3 amended: when every one of the `retry_attempts` attempts raises,
`validate_key_online` swallows the exceptions and returns a failure
whose message wraps the LAST exception as "Validation error: <e>"; the
generic "Validation failed after retries" text is produced only in the
degenerate zero-attempt configuration. -/
theorem validate_key_online_all_exceptions (registry : List (String × ProviderConfig))
    (provider : String) (pc : ProviderConfig)
    (transport : Nat → Except String HttpResponse) (n : Nat) (e : Nat → String)
    (hreg : lookupProvider registry provider = some pc) (hn : 0 < n)
    (he : ∀ i, i < n → transport i = Except.error (e i)) :
    validate_key_online registry provider transport n =
      (false, "Validation error: " ++ e (n - 1), none) ∧
    (∀ t2 : Nat → Except String HttpResponse,
      validate_key_online registry provider t2 0 =
        (false, "Validation failed after retries", none)) := by
  constructor
  · have h := validateOnlineGo_all_errors provider transport n e he n 0 (by omega) hn
    simp [validate_key_online, hreg, h]
  · intro t2
    simp [validate_key_online, hreg, validateOnlineGo]

/-- Witness for the amended C3: three raising attempts with distinct
messages; the third attempt's message is the one reported. -/
theorem validate_key_online_all_exceptions_witness :
    validate_key_online defaultProviders "anthropic"
      (fun i => Except.error (toString i)) 3 = (false, "Validation error: 2", none) := by
  have h := (validate_key_online_all_exceptions defaultProviders "anthropic"
    ⟨"Anthropic", "sk-ant-", "https://api.anthropic.com/v1/messages",
      "claude-3-sonnet-20240229"⟩
    (fun i => Except.error (toString i)) 3 (fun i => toString i)
    (by decide) (by decide) (fun i _ => rfl)).1
  exact h.trans (by decide)

/-- C4: with a 3-attempt budget, a transport raising on attempts 1 and 2
and yielding a succeeding probe response on attempt 3 makes
`validate_key_online` return that success after exactly 3 transport
calls; moreover a succeeding verdict at any attempt is returned
immediately (that attempt is the last transport call), and the final
attempt's probe outcome — ok verdict or raised exception — is always
the result returned. -/
theorem validate_key_online_retry_then_success (provider : String)
    (pc : ProviderConfig) (transport : Nat → Except String HttpResponse)
    (e0 e1 : String) (resp : HttpResponse) (r : Bool × String × Option Nat)
    (hreg : lookupProvider defaultProviders provider = some pc)
    (h0 : transport 0 = Except.error e0) (h1 : transport 1 = Except.error e1)
    (h2 : transport 2 = Except.ok resp)
    (hp : providerProbe provider resp = some r) (hr : r.1 = true) :
    validate_key_online defaultProviders provider transport 3 = r ∧
    validate_key_online_calls defaultProviders provider transport 3 = 3 ∧
    (∀ (t2 : Nat → Except String HttpResponse) (n attempt rem : Nat)
        (resp2 : HttpResponse) (r2 : Bool × String × Option Nat),
      t2 attempt = Except.ok resp2 → providerProbe provider resp2 = some r2 →
      r2.1 = true →
      validateOnlineGo provider t2 n attempt (rem + 1) = (r2, 1)) ∧
    (∀ (t2 : Nat → Except String HttpResponse) (n : Nat)
        (resp2 : HttpResponse) (r2 : Bool × String × Option Nat),
      t2 (n - 1) = Except.ok resp2 → providerProbe provider resp2 = some r2 →
      validateOnlineGo provider t2 n (n - 1) 1 = (r2, 1)) ∧
    (∀ (t2 : Nat → Except String HttpResponse) (n : Nat) (e : String),
      t2 (n - 1) = Except.error e →
      validateOnlineGo provider t2 n (n - 1) 1 =
        ((false, "Validation error: " ++ e, none), 1)) := by
  have hgo : validateOnlineGo provider transport 3 0 3 = (r, 3) := by
    simp [validateOnlineGo, h0, h1, h2, hp, hr]
  refine ⟨?_, ?_, ?_, ?_, ?_⟩
  · simp [validate_key_online, hreg, hgo]
  · simp [validate_key_online_calls, hreg, hgo]
  · intro t2 n attempt rem resp2 r2 ht2 hp2 hr2
    simp [validateOnlineGo, ht2, hp2, hr2]
  · intro t2 n resp2 r2 ht2 hp2
    simp [validateOnlineGo, ht2, hp2]
  · intro t2 n e ht2
    simp [validateOnlineGo, ht2]

/-- Witness for C4: openai with timeouts on attempts 1-2 and a 200
listing 5 models on attempt 3. -/
theorem validate_key_online_retry_then_success_witness :
    validate_key_online defaultProviders "openai"
      (fun i => if i < 2 then Except.error "timeout" else Except.ok ⟨200, 5, ""⟩) 3 =
      (true, "Valid - 5 models available", some 5) ∧
    validate_key_online_calls defaultProviders "openai"
      (fun i => if i < 2 then Except.error "timeout" else Except.ok ⟨200, 5, ""⟩) 3 = 3 := by
  have h := validate_key_online_retry_then_success "openai"
    ⟨"OpenAI", "sk-", "https://api.openai.com/v1/models", "gpt-3.5-turbo"⟩
    (fun i => if i < 2 then Except.error "timeout" else Except.ok ⟨200, 5, ""⟩)
    "timeout" "timeout" ⟨200, 5, ""⟩ (true, "Valid - 5 models available", some 5)
    (by decide) rfl rfl rfl (by decide) rfl
  exact ⟨h.1, h.2.1⟩

/-- C2 counterexample: a stored credential processed by `validate_keys`
whose format validation fails gets a "Format error: …" result but its
metadata record is NOT updated — the store comes back unchanged, with
`last_validated` still null — contradicting "updated … regardless of
its outcome, including when format validation fails". -/
theorem validate_keys_format_failure_counterexample :
    validate_keys defaultProviders (fun _ _ => Except.error "net") 3
      "2025-01-01T00:00:00" (some "anthropic") c2BadStore =
      ([("anthropic", ⟨false,
         "Format error: Invalid Anthropic key format (should be sk-ant-[50+ chars])",
         none⟩)], c2BadStore) ∧
    getAssoc (get_key_metadata "anthropic" c2BadStore) "last_validated" =
      some MetaVal.null := by
  decide

/-- C2 amended: in `validate_keys`, a processed credential whose format
validation passes gets its metadata updated (last-validated = now,
status "valid"/"invalid" from the online verdict) REGARDLESS of the
online outcome, and the verdict is recorded in the returned result map;
a credential whose format validation fails, or that is missing/empty,
yields a failure entry in the result map and leaves the store
untouched; in each case a per-provider result map is returned rather
than an exception raised. -/
theorem validate_keys_single (registry : List (String × ProviderConfig))
    (transport : String → Nat → Except String HttpResponse) (n : Nat)
    (now prov : String) (st : Store) :
    (∀ apiKey, getAssoc st.secrets prov = some apiKey → apiKey ≠ "" →
      (validate_key_format registry prov apiKey).1 = true →
      validate_keys registry transport n now (some prov) st =
        ([(prov, ⟨(validate_key_online registry prov (transport prov) n).1,
                  (validate_key_online registry prov (transport prov) n).2.1,
                  some (validate_key_online registry prov (transport prov) n).2.2⟩)],
         { st with meta := setAssoc st.meta prov (validatedMeta (get_key_metadata prov st) now (validate_key_online registry prov (transport prov) n).1) })) ∧
    (∀ apiKey, getAssoc st.secrets prov = some apiKey → apiKey ≠ "" →
      (validate_key_format registry prov apiKey).1 = false →
      validate_keys registry transport n now (some prov) st =
        ([(prov, ⟨false, "Format error: " ++ (validate_key_format registry prov apiKey).2,
           none⟩)], st)) ∧
    (getAssoc st.secrets prov = none →
      validate_keys registry transport n now (some prov) st =
        ([(prov, ⟨false, "Key not found", none⟩)], st)) := by
  refine ⟨?_, ?_, ?_⟩
  · intro apiKey hk hne hf
    simp [validate_keys, hk, hne, hf, update_key_metadata, validatedMeta, setAssoc]
  · intro apiKey hk hne hf
    simp [validate_keys, hk, hne, hf, setAssoc]
  · intro hk
    simp [validate_keys, hk, setAssoc]

/-- Witness for the amended C2: a 401 online verdict (an invalid
outcome) still updates last-validated and sets the status to
"invalid". -/
theorem validate_keys_single_witness :
    validate_keys defaultProviders (fun _ _ => Except.ok ⟨401, 0, ""⟩) 3
      "2025-02-02T00:00:00" (some "anthropic") c2GoodStore =
      ([("anthropic", ⟨false, "Invalid API key", some none⟩)], c2AfterStore) := by
  have h := (validate_keys_single defaultProviders (fun _ _ => Except.ok ⟨401, 0, ""⟩) 3
    "2025-02-02T00:00:00" "anthropic" c2GoodStore).1 anthropicGoodKey rfl
    (by decide) (by decide)
  exact h.trans (by decide)

/-- The `restore_metadata` loop restores nothing when no backup entry's
provider has a stored credential. -/
theorem restore_foldl_no_active (st : Store) :
    ∀ (l : List (String × MetaObj)) (c : Nat),
      (∀ x ∈ l, key_exists x.1 st = false) →
      l.foldl restoreStep (c, st) = (c, st) := by
  intro l
  induction l with
  | nil => intro c _; rfl
  | cons hd tl ih =>
      intro c h
      have hhd : restoreStep (c, st) hd = (c, st) := by
        simp [restoreStep, h hd (List.mem_cons_self hd tl)]
      rw [List.foldl_cons, hhd]
      exact ih c (fun x hx => h x (List.mem_cons_of_mem hd hx))

/-- C10: `restore_metadata` reports overall success only when at least
one entry was actually restored — on a backup none of whose listed
providers currently has a stored credential, every entry is skipped,
the store is unchanged and the operation returns False. -/
theorem restore_metadata_no_active_credentials
    (backupKeys : List (String × MetaObj)) (st : Store)
    (h : ∀ x ∈ backupKeys, key_exists x.1 st = false) :
    restore_metadata backupKeys st = (false, st) := by
  have hfold := restore_foldl_no_active st backupKeys 0 h
  simp [restore_metadata, hfold]

/-- Witness for C10: a one-entry backup restored into an empty store. -/
theorem restore_metadata_no_active_credentials_witness :
    restore_metadata [("anthropic", freshMetadata "anthropic" "2024-01-01T00:00:00")]
      { secrets := [], meta := [] } = (false, { secrets := [], meta := [] }) := by
  apply restore_metadata_no_active_credentials
  intro x hx
  simp only [List.mem_singleton] at hx
  subst hx
  decide
